import Mathlib

/-
Verification development for the shadow-variable missingness-recovery example
(source file: self_censoring_recovery_small_example.py).

The embedding models the numpy/pandas code over exact real numbers:

  * a data frame is a list of rows; every vectorized numpy expression
    (elementwise arithmetic followed by np.average) becomes a List.map
    followed by sum-divided-by-length;
  * the continuous columns W1, W2 are real numbers; the integer columns
    A, Y, R_A, R_Y are integers (pandas int64), so the numpy power
    float ** int64 becomes real zpow;
  * the ambient numpy random source is made explicit: a GenDraws record
    carries the standard-normal draws consumed for W1 and for the noise
    component of W2, and the uniform draws that drive each Bernoulli
    (binomial n=1) sample by inverse-CDF thresholding;
  * scipy.special.expit is the logistic sigmoid 1/(1+exp(-x)).
-/

noncomputable section

namespace SelfCensoring

/-- Logistic sigmoid, the embedding of scipy.special.expit. -/
def expit (x : ℝ) : ℝ := 1 / (1 + Real.exp (-x))

/-- One observation: continuous covariates W1 and W2, binary exposure A,
binary outcome Y, and missingness indicators R_A and R_Y.  In the masked
dataset, A and Y hold the sentinel -1 where the indicator is 0. -/
structure DataRow where
  W1 : ℝ
  W2 : ℝ
  A : ℤ
  Y : ℤ
  R_A : ℤ
  R_Y : ℤ

/-- Embedding of np.average on a vectorized expression: sum divided by
length. -/
def average (l : List ℝ) : ℝ := l.sum / (l.length : ℝ)

/-- The random draws consumed by one call of generateData, indexed by row.
normalW1 and normalW2 are the two Normal(0,1) streams; the u fields are the
Uniform(0,1) streams that realize each np.random.binomial(1, p) sample. -/
structure GenDraws where
  normalW1 : ℕ → ℝ
  normalW2 : ℕ → ℝ
  uA : ℕ → ℝ
  uY : ℕ → ℝ
  uRA : ℕ → ℝ
  uRY : ℕ → ℝ

/-- Bernoulli sample by inverse-CDF thresholding of a uniform draw: the
embedding of np.random.binomial(1, p) consuming one uniform value u. -/
def bern (u p : ℝ) : ℤ := if u < p then 1 else 0

/-- Row i of the fully observed dataset, mirroring lines 21-44 of the
source: W1 is a Normal(0,1) draw, W2 adds independent Normal(0,1) noise to
1.4*W1, then A, Y, R_A, R_Y are Bernoulli draws with the stated logistic
success probabilities. -/
def fullRow (src : GenDraws) (i : ℕ) : DataRow :=
  let W1 := src.normalW1 i
  let W2 := src.normalW2 i + 1.4 * W1
  let A := bern (src.uA i) (expit (W1 + W2))
  let Y := bern (src.uY i) (expit (W2 + (A : ℝ) - 0.4))
  let R_A := bern (src.uRA i) (expit (2 * (A : ℝ) + 0.3))
  let R_Y := bern (src.uRY i) (expit (2 * (Y : ℝ) + W2 + 0.8))
  { W1 := W1, W2 := W2, A := A, Y := Y, R_A := R_A, R_Y := R_Y }

/-- Masking rule applied to a copy of the full data (lines 46-51 of the
source): A is overwritten with the sentinel -1 where R_A = 0, and Y with
the sentinel -1 where R_Y = 0; all other columns are untouched. -/
def mask (r : DataRow) : DataRow :=
  { r with
    A := if r.R_A = 0 then -1 else r.A
    Y := if r.R_Y = 0 then -1 else r.Y }

/-- Embedding of generateData: build the fully observed dataset, then
derive the masked dataset from a copy of it, and
return the pair (full, masked). -/
def generateData (size : ℕ) (src : GenDraws) : List DataRow × List DataRow :=
  let fullData := (List.range size).map (fullRow src)
  let maskedData := fullData.map mask
  (fullData, maskedData)

/-- Parameter vector of the exposure missingness model: alpha0 is the
logistic intercept for P(R_A=1 given A=0) and gamma the missingness odds
ratio between A=1 and A=0. -/
structure ParamsA where
  alpha0 : ℝ
  gamma : ℝ

/-- Parameter vector of the outcome missingness model: (alpha0, alpha1)
give the logistic baseline P(R_Y=1 given Y=0, W2) and (gamma0, gamma1) the
odds ratio, itself linear in W2. -/
structure ParamsY where
  alpha0 : ℝ
  alpha1 : ℝ
  gamma0 : ℝ
  gamma1 : ℝ

/-- Per-row fitted probability of observing A (lines 95-96 of the source):
with p0 = expit(alpha0), the odds-ratio parametrization
p0 / (p0 + gamma^A * (1-p0)), evaluated at whatever integer the A column
holds in that row. -/
def pRA_1 (p : ParamsA) (r : DataRow) : ℝ :=
  expit p.alpha0 / (expit p.alpha0 + p.gamma ^ r.A * (1 - expit p.alpha0))

/-- Exposure-variant shadow IPW residuals (lines 85-101 of the source):
the two moment equations with instrument functions W1 and W1^2. -/
def shadowIpwFunctional_A (p : ParamsA) (data : List DataRow) : ℝ × ℝ :=
  (average (data.map fun r => r.W1 * (r.R_A : ℝ) / pRA_1 p r - r.W1),
   average (data.map fun r => r.W1 ^ 2 * (r.R_A : ℝ) / pRA_1 p r - r.W1 ^ 2))

/-- Exposure-variant propensity predictions (lines 103-111 of the source):
the same per-row probability pRA_1, computed for every row of the data. -/
def rootsPrediction_A (roots : ParamsA) (data : List DataRow) : List ℝ :=
  data.map fun r =>
    expit roots.alpha0 /
      (expit roots.alpha0 + roots.gamma ^ r.A * (1 - expit roots.alpha0))

/-- Per-row fitted probability of observing Y (lines 65-66 of the source):
with p0 = expit(alpha0 + alpha1*W2), the odds-ratio parametrization
p0 / (p0 + (gamma0 + gamma1*W2)^Y * (1-p0)), evaluated at whatever integer
the Y column holds in that row. -/
def pRY_1 (p : ParamsY) (r : DataRow) : ℝ :=
  expit (p.alpha0 + p.alpha1 * r.W2) /
    (expit (p.alpha0 + p.alpha1 * r.W2) +
      (p.gamma0 + p.gamma1 * r.W2) ^ r.Y * (1 - expit (p.alpha0 + p.alpha1 * r.W2)))

/-- Outcome-variant shadow IPW residuals (lines 55-73 of the source): the
four moment equations with instrument functions W1*W2, W1*W2+1, W1*W2^2,
W1*W2^2+1 in that order. -/
def shadowIpwFunctional_Y (p : ParamsY) (data : List DataRow) : ℝ × ℝ × ℝ × ℝ :=
  (average (data.map fun r => r.W1 * r.W2 * (r.R_Y : ℝ) / pRY_1 p r - r.W1 * r.W2),
   average (data.map fun r => (r.W1 * r.W2 + 1) * (r.R_Y : ℝ) / pRY_1 p r - (r.W1 * r.W2 + 1)),
   average (data.map fun r => r.W1 * r.W2 ^ 2 * (r.R_Y : ℝ) / pRY_1 p r - r.W1 * r.W2 ^ 2),
   average (data.map fun r => (r.W1 * r.W2 ^ 2 + 1) * (r.R_Y : ℝ) / pRY_1 p r - (r.W1 * r.W2 ^ 2 + 1)))

/-- Outcome-variant propensity predictions (lines 75-83 of the source):
the same per-row probability pRY_1, computed for every row of the data. -/
def rootsPrediction_Y (roots : ParamsY) (data : List DataRow) : List ℝ :=
  data.map fun r =>
    expit (roots.alpha0 + roots.alpha1 * r.W2) /
      (expit (roots.alpha0 + roots.alpha1 * r.W2) +
        (roots.gamma0 + roots.gamma1 * r.W2) ^ r.Y *
          (1 - expit (roots.alpha0 + roots.alpha1 * r.W2)))

/-- The logistic sigmoid is strictly positive. -/
lemma expit_pos (x : ℝ) : 0 < expit x := by
  unfold expit
  positivity

/-- The logistic sigmoid is strictly below one. -/
lemma expit_lt_one (x : ℝ) : expit x < 1 := by
  unfold expit
  rw [div_lt_one (by positivity)]
  have h := Real.exp_pos (-x)
  linarith

/-- The logistic sigmoid at zero is one half. -/
lemma expit_zero : expit 0 = 1 / 2 := by
  unfold expit
  rw [neg_zero, Real.exp_zero]
  norm_num

/-- A Bernoulli sample is zero or one. -/
lemma bern_mem (u p : ℝ) : bern u p = 0 ∨ bern u p = 1 := by
  unfold bern
  split
  · exact Or.inr rfl
  · exact Or.inl rfl

/-- Core range fact for the odds-ratio parametrization: a baseline
probability strictly inside (0,1) combined with a positive odds-ratio term
keeps the reweighted probability strictly inside (0,1). -/
lemma oddsRatio_mem_Ioo {p0 t : ℝ} (h0 : 0 < p0) (h1 : p0 < 1) (ht : 0 < t) :
    0 < p0 / (p0 + t * (1 - p0)) ∧ p0 / (p0 + t * (1 - p0)) < 1 := by
  have hden : 0 < p0 + t * (1 - p0) := by nlinarith
  constructor
  · exact div_pos h0 hden
  · rw [div_lt_one hden]
    nlinarith

/-- Claim C1: for every dataset and every parameter pair (alpha0, gamma),
the exposure-variant residual function returns exactly the pair (r1, r2)
with r1 the average of W1*R_A/p1 - W1 and r2 the average of
W1^2*R_A/p1 - W1^2, where p0 = sigmoid(alpha0) and, per row,
p1 = p0 / (p0 + gamma^A * (1-p0)) at the possibly sentinel A of that row. -/
theorem shadowIpwFunctional_A_spec (p : ParamsA) (data : List DataRow) :
    shadowIpwFunctional_A p data =
      (average (data.map fun r =>
          r.W1 * (r.R_A : ℝ) /
            (expit p.alpha0 / (expit p.alpha0 + p.gamma ^ r.A * (1 - expit p.alpha0)))
          - r.W1),
       average (data.map fun r =>
          r.W1 ^ 2 * (r.R_A : ℝ) /
            (expit p.alpha0 / (expit p.alpha0 + p.gamma ^ r.A * (1 - expit p.alpha0)))
          - r.W1 ^ 2)) := rfl

/-- Claim C2: for every dataset and every parameter vector
(alpha0, alpha1, gamma0, gamma1), the outcome-variant residual function
returns exactly the 4-vector of averages of h*R_Y/p1 - h for the four
instruments h = W1*W2, W1*W2+1, W1*W2^2, W1*W2^2+1 in that order, where
p0(w2) = sigmoid(alpha0 + alpha1*w2) and
p1(y,w2) = p0 / (p0 + (gamma0 + gamma1*w2)^y * (1-p0)). -/
theorem shadowIpwFunctional_Y_spec (p : ParamsY) (data : List DataRow) :
    shadowIpwFunctional_Y p data =
      (average (data.map fun r =>
          (r.W1 * r.W2) * (r.R_Y : ℝ) /
            (expit (p.alpha0 + p.alpha1 * r.W2) /
              (expit (p.alpha0 + p.alpha1 * r.W2) +
                (p.gamma0 + p.gamma1 * r.W2) ^ r.Y *
                  (1 - expit (p.alpha0 + p.alpha1 * r.W2))))
          - (r.W1 * r.W2)),
       average (data.map fun r =>
          (r.W1 * r.W2 + 1) * (r.R_Y : ℝ) /
            (expit (p.alpha0 + p.alpha1 * r.W2) /
              (expit (p.alpha0 + p.alpha1 * r.W2) +
                (p.gamma0 + p.gamma1 * r.W2) ^ r.Y *
                  (1 - expit (p.alpha0 + p.alpha1 * r.W2))))
          - (r.W1 * r.W2 + 1)),
       average (data.map fun r =>
          (r.W1 * r.W2 ^ 2) * (r.R_Y : ℝ) /
            (expit (p.alpha0 + p.alpha1 * r.W2) /
              (expit (p.alpha0 + p.alpha1 * r.W2) +
                (p.gamma0 + p.gamma1 * r.W2) ^ r.Y *
                  (1 - expit (p.alpha0 + p.alpha1 * r.W2))))
          - (r.W1 * r.W2 ^ 2)),
       average (data.map fun r =>
          (r.W1 * r.W2 ^ 2 + 1) * (r.R_Y : ℝ) /
            (expit (p.alpha0 + p.alpha1 * r.W2) /
              (expit (p.alpha0 + p.alpha1 * r.W2) +
                (p.gamma0 + p.gamma1 * r.W2) ^ r.Y *
                  (1 - expit (p.alpha0 + p.alpha1 * r.W2))))
          - (r.W1 * r.W2 ^ 2 + 1))) := rfl

/-- Claim C6: the data generator draws, for every row, W1 from its
Normal(0,1) stream; W2 as an independent Normal(0,1) draw plus 1.4*W1; A as
Bernoulli(sigmoid(W1+W2)); Y as Bernoulli(sigmoid(W2+A-0.4)); R_A as
Bernoulli(sigmoid(2A+0.3)); R_Y as Bernoulli(sigmoid(2Y+W2+0.8)); and every
value of A, Y, R_A, R_Y in the resulting full dataset is 0 or 1. -/
theorem generateData_model (size : ℕ) (src : GenDraws) (i : ℕ) :
    (generateData size src).1 = (List.range size).map (fullRow src)
  ∧ (fullRow src i).W1 = src.normalW1 i
  ∧ (fullRow src i).W2 = src.normalW2 i + 1.4 * src.normalW1 i
  ∧ (fullRow src i).A = bern (src.uA i) (expit ((fullRow src i).W1 + (fullRow src i).W2))
  ∧ (fullRow src i).Y =
      bern (src.uY i) (expit ((fullRow src i).W2 + ((fullRow src i).A : ℝ) - 0.4))
  ∧ (fullRow src i).R_A = bern (src.uRA i) (expit (2 * ((fullRow src i).A : ℝ) + 0.3))
  ∧ (fullRow src i).R_Y =
      bern (src.uRY i) (expit (2 * ((fullRow src i).Y : ℝ) + (fullRow src i).W2 + 0.8))
  ∧ ((fullRow src i).A = 0 ∨ (fullRow src i).A = 1)
  ∧ ((fullRow src i).Y = 0 ∨ (fullRow src i).Y = 1)
  ∧ ((fullRow src i).R_A = 0 ∨ (fullRow src i).R_A = 1)
  ∧ ((fullRow src i).R_Y = 0 ∨ (fullRow src i).R_Y = 1) :=
  ⟨rfl, rfl, rfl, rfl, rfl, rfl, rfl,
   bern_mem _ _, bern_mem _ _, bern_mem _ _, bern_mem _ _⟩

/-- Claim C10: datasets are immutable after generation: the full dataset
returned by generateData is exactly the dataset as constructed before the
masked copy is derived (deriving the masked dataset writes the sentinel
only into the copy, never into the full dataset, whose A and Y columns
never hold the sentinel); residual and prediction functions are pure value
maps on rows of the dataset passed to them. -/
theorem datasets_immutable (size : ℕ) (src : GenDraws) :
    (generateData size src).1 = (List.range size).map (fullRow src)
  ∧ (∀ i, (fullRow src i).A ≠ -1 ∧ (fullRow src i).Y ≠ -1)
  ∧ (∀ (p : ParamsY) (d : List DataRow),
      rootsPrediction_Y p d = d.map (fun r => pRY_1 p r))
  ∧ (∀ (p : ParamsA) (d : List DataRow),
      rootsPrediction_A p d = d.map (fun r => pRA_1 p r)) := by
  refine ⟨rfl, ?_, fun p d => rfl, fun p d => rfl⟩
  intro i
  constructor
  · rcases bern_mem (src.uA i) (expit (src.normalW1 i + (src.normalW2 i + 1.4 * src.normalW1 i))) with h | h <;>
      simp [fullRow, h]
  · rcases bern_mem (src.uY i)
      (expit (src.normalW2 i + 1.4 * src.normalW1 i +
        ((bern (src.uA i) (expit (src.normalW1 i + (src.normalW2 i + 1.4 * src.normalW1 i)))) : ℝ) - 0.4)) with h | h <;>
      simp [fullRow, h]

/-- The A column of a generated row is binary. -/
lemma fullRow_A_binary (src : GenDraws) (i : ℕ) :
    (fullRow src i).A = 0 ∨ (fullRow src i).A = 1 := bern_mem _ _

/-- The Y column of a generated row is binary. -/
lemma fullRow_Y_binary (src : GenDraws) (i : ℕ) :
    (fullRow src i).Y = 0 ∨ (fullRow src i).Y = 1 := bern_mem _ _

/-- The R_A column of a generated row is binary. -/
lemma fullRow_RA_binary (src : GenDraws) (i : ℕ) :
    (fullRow src i).R_A = 0 ∨ (fullRow src i).R_A = 1 := bern_mem _ _

/-- The R_Y column of a generated row is binary. -/
lemma fullRow_RY_binary (src : GenDraws) (i : ℕ) :
    (fullRow src i).R_Y = 0 ∨ (fullRow src i).R_Y = 1 := bern_mem _ _

/-- Claim C3: for every size, the masked dataset returned by the generator
is the rowwise masking of the full dataset, and at every row R_A = 1 iff
the masked A equals the full A, R_A = 0 iff the masked A is the sentinel
-1, symmetrically for Y and R_Y, while W1, W2, R_A, R_Y coincide between
the full and masked rows. -/
theorem masking_consistency (size : ℕ) (src : GenDraws) (i : ℕ) :
    (generateData size src).2 = ((generateData size src).1).map mask
  ∧ ((mask (fullRow src i)).R_A = 1 ↔ (mask (fullRow src i)).A = (fullRow src i).A)
  ∧ ((mask (fullRow src i)).R_A = 0 ↔ (mask (fullRow src i)).A = -1)
  ∧ ((mask (fullRow src i)).R_Y = 1 ↔ (mask (fullRow src i)).Y = (fullRow src i).Y)
  ∧ ((mask (fullRow src i)).R_Y = 0 ↔ (mask (fullRow src i)).Y = -1)
  ∧ (mask (fullRow src i)).W1 = (fullRow src i).W1
  ∧ (mask (fullRow src i)).W2 = (fullRow src i).W2
  ∧ (mask (fullRow src i)).R_A = (fullRow src i).R_A
  ∧ (mask (fullRow src i)).R_Y = (fullRow src i).R_Y := by
  have hA := fullRow_A_binary src i
  have hY := fullRow_Y_binary src i
  have hRA := fullRow_RA_binary src i
  have hRY := fullRow_RY_binary src i
  refine ⟨rfl, ?_, ?_, ?_, ?_, rfl, rfl, rfl, rfl⟩
  · rcases hRA with h | h <;> rcases hA with h2 | h2 <;> simp [mask, h, h2]
  · rcases hRA with h | h <;> rcases hA with h2 | h2 <;> simp [mask, h, h2]
  · rcases hRY with h | h <;> rcases hY with h2 | h2 <;> simp [mask, h, h2]
  · rcases hRY with h | h <;> rcases hY with h2 | h2 <;> simp [mask, h, h2]

/-- Claim C4: every probability returned by the exposure predictor and by
the outcome predictor lies strictly in (0,1) whenever the baseline p0 lies
in (0,1) and the odds-ratio term raised to the relevant row value is
positive. -/
theorem rootsPrediction_range :
    (∀ (roots : ParamsA) (data : List DataRow),
        0 < expit roots.alpha0 → expit roots.alpha0 < 1 →
        (∀ r ∈ data, 0 < roots.gamma ^ r.A) →
        ∀ x ∈ rootsPrediction_A roots data, 0 < x ∧ x < 1)
  ∧ (∀ (roots : ParamsY) (data : List DataRow),
        (∀ r ∈ data, 0 < expit (roots.alpha0 + roots.alpha1 * r.W2)
            ∧ expit (roots.alpha0 + roots.alpha1 * r.W2) < 1) →
        (∀ r ∈ data, 0 < (roots.gamma0 + roots.gamma1 * r.W2) ^ r.Y) →
        ∀ x ∈ rootsPrediction_Y roots data, 0 < x ∧ x < 1) := by
  constructor
  · intro roots data h0 h1 ht x hx
    rw [rootsPrediction_A, List.mem_map] at hx
    obtain ⟨r, hr, rfl⟩ := hx
    exact oddsRatio_mem_Ioo h0 h1 (ht r hr)
  · intro roots data h0 ht x hx
    rw [rootsPrediction_Y, List.mem_map] at hx
    obtain ⟨r, hr, rfl⟩ := hx
    exact oddsRatio_mem_Ioo (h0 r hr).1 (h0 r hr).2 (ht r hr)

/-- Concrete fully observed example row used by witnesses. -/
def exampleRow : DataRow := ⟨1, 0, 1, 1, 1, 1⟩

/-- Concrete exposure-model parameters used by witnesses. -/
def examplePA : ParamsA := ⟨0, 1⟩

/-- Concrete outcome-model parameters used by witnesses. -/
def examplePY : ParamsY := ⟨0, 0, 1, 0⟩

/-- Witness for claim C4: at concrete parameters and a concrete one-row
dataset, both predicted probabilities are strictly inside (0,1). -/
theorem rootsPrediction_range_witness :
    (0 < expit 0 / (expit 0 + (1 : ℝ) ^ (1 : ℤ) * (1 - expit 0))
      ∧ expit 0 / (expit 0 + (1 : ℝ) ^ (1 : ℤ) * (1 - expit 0)) < 1)
  ∧ (0 < expit (0 + 0 * 0) /
          (expit (0 + 0 * 0) + ((1 : ℝ) + 0 * 0) ^ (1 : ℤ) * (1 - expit (0 + 0 * 0)))
      ∧ expit (0 + 0 * 0) /
          (expit (0 + 0 * 0) + ((1 : ℝ) + 0 * 0) ^ (1 : ℤ) * (1 - expit (0 + 0 * 0))) < 1) := by
  constructor
  · exact rootsPrediction_range.1 examplePA [exampleRow] (expit_pos 0) (expit_lt_one 0)
      (by intro r hr; rw [List.mem_singleton] at hr; subst hr; simp [examplePA, exampleRow])
      _ (List.mem_singleton.mpr rfl)
  · exact rootsPrediction_range.2 examplePY [exampleRow]
      (by intro r hr; rw [List.mem_singleton] at hr; subst hr
          exact ⟨expit_pos _, expit_lt_one _⟩)
      (by intro r hr; rw [List.mem_singleton] at hr; subst hr; simp [examplePY, exampleRow])
      _ (List.mem_singleton.mpr rfl)

/-- Rewriting a rowwise transformation under a map: if the per-row summand
is unchanged by the transformation, the mapped column is unchanged. -/
lemma map_remask (g : DataRow → DataRow) (f : DataRow → ℝ) (data : List DataRow)
    (hf : ∀ r, f (g r) = f r) : (data.map g).map f = data.map f := by
  rw [List.map_map]
  exact List.map_congr_left fun a _ => hf a

/-- Claim C5: using the sentinel value of Y in the outcome-variant residual
function is safe: rewriting the Y value of every row with R_Y = 0 leaves
the residual 4-vector unchanged, and every row with R_Y = 0 contributes
exactly minus its instrument value to each residual entry, because the
sentinel-bearing p1 only appears under a numerator multiplied by R_Y = 0. -/
theorem sentinel_safety_Y :
    (∀ (p : ParamsY) (data : List DataRow) (s : ℤ),
        shadowIpwFunctional_Y p
            (data.map fun r => if r.R_Y = 0 then { r with Y := s } else r)
          = shadowIpwFunctional_Y p data)
  ∧ (∀ (p : ParamsY) (r : DataRow), r.R_Y = 0 →
        (r.W1 * r.W2 * (r.R_Y : ℝ) / pRY_1 p r - r.W1 * r.W2 = -(r.W1 * r.W2))
      ∧ ((r.W1 * r.W2 + 1) * (r.R_Y : ℝ) / pRY_1 p r - (r.W1 * r.W2 + 1)
            = -(r.W1 * r.W2 + 1))
      ∧ (r.W1 * r.W2 ^ 2 * (r.R_Y : ℝ) / pRY_1 p r - r.W1 * r.W2 ^ 2
            = -(r.W1 * r.W2 ^ 2))
      ∧ ((r.W1 * r.W2 ^ 2 + 1) * (r.R_Y : ℝ) / pRY_1 p r - (r.W1 * r.W2 ^ 2 + 1)
            = -(r.W1 * r.W2 ^ 2 + 1))) := by
  constructor
  · intro p data s
    unfold shadowIpwFunctional_Y
    refine Prod.ext (congrArg average (map_remask _ _ _ ?_))
      (Prod.ext (congrArg average (map_remask _ _ _ ?_))
        (Prod.ext (congrArg average (map_remask _ _ _ ?_))
          (congrArg average (map_remask _ _ _ ?_)))) <;>
      (intro r; by_cases hr : r.R_Y = 0 <;> simp [hr])
  · intro p r h
    refine ⟨?_, ?_, ?_, ?_⟩ <;> rw [h] <;> simp

/-- Concrete masked outcome row (R_Y = 0, sentinel Y) used by witnesses. -/
def maskedRowY : DataRow := ⟨1, 1, 0, -1, 1, 0⟩

/-- Witness for claim C5 at a concrete parameter vector and a concrete
masked row: remasking with a different sentinel preserves the residuals,
and the masked row term equals minus the instrument. -/
theorem sentinel_safety_Y_witness :
    shadowIpwFunctional_Y ⟨0, 0, 1, 0⟩
        ([maskedRowY].map fun r => if r.R_Y = 0 then { r with Y := 5 } else r)
      = shadowIpwFunctional_Y ⟨0, 0, 1, 0⟩ [maskedRowY]
  ∧ maskedRowY.W1 * maskedRowY.W2 * (maskedRowY.R_Y : ℝ) / pRY_1 ⟨0, 0, 1, 0⟩ maskedRowY
      - maskedRowY.W1 * maskedRowY.W2 = -(maskedRowY.W1 * maskedRowY.W2) :=
  ⟨sentinel_safety_Y.1 ⟨0, 0, 1, 0⟩ [maskedRowY] 5,
   (sentinel_safety_Y.2 ⟨0, 0, 1, 0⟩ maskedRowY rfl).1⟩

/-- Claim C9: under a nonzero odds-ratio term, every masked row contributes
exactly minus its instrument value to each residual entry, in both the
exposure and the outcome variant, and the residual vectors are independent
of which sentinel number encodes a missing A or Y. -/
theorem masked_row_contribution :
    (∀ (p : ParamsA) (r : DataRow), p.gamma ≠ 0 → r.R_A = 0 →
        (r.W1 * (r.R_A : ℝ) / pRA_1 p r - r.W1 = -r.W1)
      ∧ (r.W1 ^ 2 * (r.R_A : ℝ) / pRA_1 p r - r.W1 ^ 2 = -(r.W1 ^ 2)))
  ∧ (∀ (p : ParamsA) (data : List DataRow) (s : ℤ), p.gamma ≠ 0 →
        shadowIpwFunctional_A p
            (data.map fun r => if r.R_A = 0 then { r with A := s } else r)
          = shadowIpwFunctional_A p data)
  ∧ (∀ (p : ParamsY) (r : DataRow), p.gamma0 + p.gamma1 * r.W2 ≠ 0 → r.R_Y = 0 →
        (r.W1 * r.W2 * (r.R_Y : ℝ) / pRY_1 p r - r.W1 * r.W2 = -(r.W1 * r.W2))
      ∧ ((r.W1 * r.W2 + 1) * (r.R_Y : ℝ) / pRY_1 p r - (r.W1 * r.W2 + 1)
            = -(r.W1 * r.W2 + 1))
      ∧ (r.W1 * r.W2 ^ 2 * (r.R_Y : ℝ) / pRY_1 p r - r.W1 * r.W2 ^ 2
            = -(r.W1 * r.W2 ^ 2))
      ∧ ((r.W1 * r.W2 ^ 2 + 1) * (r.R_Y : ℝ) / pRY_1 p r - (r.W1 * r.W2 ^ 2 + 1)
            = -(r.W1 * r.W2 ^ 2 + 1)))
  ∧ (∀ (p : ParamsY) (data : List DataRow) (s : ℤ),
        (∀ r ∈ data, r.R_Y = 0 → p.gamma0 + p.gamma1 * r.W2 ≠ 0) →
        shadowIpwFunctional_Y p
            (data.map fun r => if r.R_Y = 0 then { r with Y := s } else r)
          = shadowIpwFunctional_Y p data) := by
  refine ⟨?_, ?_, ?_, ?_⟩
  · intro p r _ h
    constructor <;> rw [h] <;> simp
  · intro p data s _
    unfold shadowIpwFunctional_A
    refine Prod.ext (congrArg average (map_remask _ _ _ ?_))
      (congrArg average (map_remask _ _ _ ?_)) <;>
      (intro r; by_cases hr : r.R_A = 0 <;> simp [hr])
  · intro p r _ h
    refine ⟨?_, ?_, ?_, ?_⟩ <;> rw [h] <;> simp
  · intro p data s _
    unfold shadowIpwFunctional_Y
    refine Prod.ext (congrArg average (map_remask _ _ _ ?_))
      (Prod.ext (congrArg average (map_remask _ _ _ ?_))
        (Prod.ext (congrArg average (map_remask _ _ _ ?_))
          (congrArg average (map_remask _ _ _ ?_)))) <;>
      (intro r; by_cases hr : r.R_Y = 0 <;> simp [hr])

/-- Concrete masked exposure row (R_A = 0, sentinel A) used by witnesses. -/
def maskedRowA : DataRow := ⟨2, 0, -1, 0, 0, 1⟩

/-- Witness for claim C9 at concrete parameters with nonzero odds-ratio
term and a concrete masked row. -/
theorem masked_row_contribution_witness :
    (maskedRowA.W1 * (maskedRowA.R_A : ℝ) / pRA_1 ⟨0, 1⟩ maskedRowA - maskedRowA.W1
        = -maskedRowA.W1)
  ∧ shadowIpwFunctional_A ⟨0, 1⟩
        ([maskedRowA].map fun r => if r.R_A = 0 then { r with A := 7 } else r)
      = shadowIpwFunctional_A ⟨0, 1⟩ [maskedRowA] :=
  ⟨(masked_row_contribution.1 ⟨0, 1⟩ maskedRowA one_ne_zero rfl).1,
   masked_row_contribution.2.1 ⟨0, 1⟩ [maskedRowA] 7 one_ne_zero⟩

/-- Concrete all-masked row: the response A is sentinel and R_A = 0. -/
def allMaskedRow : DataRow := ⟨1, 0, -1, -1, 0, 0⟩

/-- Claim C7 counterexample: on a dataset in which every row has a sentinel
response (R_A = 0 throughout), the estimation step does not reject anything
— the exposure residual function, whose codomain carries no error value
because the source defines no error path, returns the plain numeric vector
(-1, -1) at parameters (0, 1). -/
theorem no_rejection_counterexample :
    shadowIpwFunctional_A ⟨0, 1⟩ [allMaskedRow] = (-1, -1) := by
  unfold shadowIpwFunctional_A allMaskedRow average
  norm_num

/-- Claim C7 as amended: the estimation step performs no validation of the
number of contributing rows: on a dataset whose every row has a sentinel
response, both residual functions return the numeric vector whose entries
are the averages of minus the instruments, and no configuration error is
raised. -/
theorem no_rejection_amended :
    (∀ (p : ParamsA) (data : List DataRow), (∀ r ∈ data, r.R_A = 0) →
        shadowIpwFunctional_A p data
          = (average (data.map fun r => -r.W1),
             average (data.map fun r => -(r.W1 ^ 2))))
  ∧ (∀ (p : ParamsY) (data : List DataRow), (∀ r ∈ data, r.R_Y = 0) →
        shadowIpwFunctional_Y p data
          = (average (data.map fun r => -(r.W1 * r.W2)),
             average (data.map fun r => -(r.W1 * r.W2 + 1)),
             average (data.map fun r => -(r.W1 * r.W2 ^ 2)),
             average (data.map fun r => -(r.W1 * r.W2 ^ 2 + 1)))) := by
  constructor
  · intro p data h
    unfold shadowIpwFunctional_A
    refine Prod.ext (congrArg average (List.map_congr_left fun r hr => ?_))
      (congrArg average (List.map_congr_left fun r hr => ?_)) <;>
      rw [h r hr] <;> simp
  · intro p data h
    unfold shadowIpwFunctional_Y
    refine Prod.ext (congrArg average (List.map_congr_left fun r hr => ?_))
      (Prod.ext (congrArg average (List.map_congr_left fun r hr => ?_))
        (Prod.ext (congrArg average (List.map_congr_left fun r hr => ?_))
          (congrArg average (List.map_congr_left fun r hr => ?_)))) <;>
      rw [h r hr] <;> simp

/-- Witness for amended claim C7 at a concrete all-masked one-row dataset
and concrete parameters. -/
theorem no_rejection_amended_witness :
    shadowIpwFunctional_A ⟨1, 2⟩ [allMaskedRow]
      = (average ([allMaskedRow].map fun r => -r.W1),
         average ([allMaskedRow].map fun r => -(r.W1 ^ 2))) :=
  no_rejection_amended.1 ⟨1, 2⟩ [allMaskedRow]
    (by intro r hr; rw [List.mem_singleton] at hr; subst hr; rfl)

/-- Claim C8: the generator is deterministic given the seed: with the
random source a fixed function of the seed (the embedding of seeding the
global numpy state), two runs with the same size and the same seed produce
identical (full, masked) dataset pairs. -/
theorem generateData_deterministic (seedDraws : ℕ → GenDraws)
    (size seed1 seed2 : ℕ) (h : seed1 = seed2) :
    generateData size (seedDraws seed1) = generateData size (seedDraws seed2) := by
  rw [h]

/-- Witness for claim C8 at a concrete source, size and seed. -/
theorem generateData_deterministic_witness :
    generateData 3 ((fun _ => ⟨fun _ => 0, fun _ => 0, fun _ => 0, fun _ => 0,
        fun _ => 0, fun _ => 0⟩ : ℕ → GenDraws) 10)
      = generateData 3 ((fun _ => ⟨fun _ => 0, fun _ => 0, fun _ => 0, fun _ => 0,
        fun _ => 0, fun _ => 0⟩ : ℕ → GenDraws) 10) :=
  generateData_deterministic
    (fun _ => ⟨fun _ => 0, fun _ => 0, fun _ => 0, fun _ => 0, fun _ => 0, fun _ => 0⟩)
    3 10 10 rfl

end SelfCensoring
